import Mathlib

/-!
Verification of the recording-session state machine and media-device
registry of the loom-clone frontend.

The definitions below are a shallow embedding of
`src/app/services/recording/recording-session.service.ts` and of the
selection-key revision of
`src/app/services/recording/media-devices.service.ts`.  Platform
behaviour (getDisplayMedia, getUserMedia, MediaRecorder, the device
list returned by the browser, IndexedDB) is supplied through explicit
environment records; every externally visible action of the services
is logged as an event so that call/no-call properties can be stated.
-/

namespace LoomClone

/-- Kinds of media input devices (`MediaDeviceKind` in media.models.ts). -/
inductive MediaDeviceKind
  | videoinput
  | audioinput
deriving DecidableEq, Repr

/-- String form of a device kind, as used in template literals. -/
def kindToString : MediaDeviceKind → String
  | MediaDeviceKind.videoinput => "videoinput"
  | MediaDeviceKind.audioinput => "audioinput"

/-- Raw device description returned by `navigator.mediaDevices.enumerateDevices()`. -/
structure PlatformDevice where
  deviceId : String
  label : String
  kind : MediaDeviceKind
  groupId : String
deriving DecidableEq, Repr

/-- Enumerated device entry (`MediaInputDevice`, selection-key revision). -/
structure MediaInputDevice where
  selectionKey : String
  deviceId : String
  label : String
  kind : MediaDeviceKind
  groupId : String
deriving DecidableEq, Repr

/-- Permission state for media-device access (`MediaPermissionState`). -/
inductive MediaPermissionState
  | unknown
  | prompt
  | granted
  | denied
deriving DecidableEq, Repr

/-- Recording runtime status (`RecordingStatus`). -/
inductive RecordingStatus
  | idle
  | starting
  | recording
  | stopping
  | error
deriving DecidableEq, Repr

/-- readyState of a `MediaStreamTrack`. -/
inductive TrackReadyState
  | live
  | ended
deriving DecidableEq, Repr

/-- A live `MediaStreamTrack` as seen by the device registry (only the
fields the service reads or writes). -/
structure LiveTrack where
  readyState : TrackReadyState
  enabled : Bool
deriving DecidableEq, Repr

/-- Kind of track inside a `MediaStream` handled by the recording session. -/
inductive TrackKind
  | video
  | audio
deriving DecidableEq, Repr

/-- A track of a captured `MediaStream`; the id distinguishes track objects. -/
structure Track where
  id : Nat
  kind : TrackKind
deriving DecidableEq, Repr

/-- A thrown JavaScript value, as far as the services inspect it. -/
inductive JsError
  | domException (name message : String)
  | jsError (message : String)
  | other
deriving DecidableEq, Repr

/-- Message extraction `error instanceof Error ? error.message : fallback`
(a DOMException is an Error). -/
def errorMessageOf (e : JsError) (fallback : String) : String :=
  match e with
  | JsError.domException _ m => m
  | JsError.jsError m => m
  | JsError.other => fallback

/-! ### Device registry (`MediaDevicesService`, selection-key revision) -/

/-- State of `MediaDevicesService`: its private signals. -/
structure DevState where
  availableCameras : List MediaInputDevice
  availableMicrophones : List MediaInputDevice
  selectedCameraKey : Option String
  selectedMicrophoneKey : Option String
  isEnumerating : Bool
  permissionState : MediaPermissionState
  errorMessage : Option String
  microphoneEnabled : Bool
  cameraEnabled : Bool
  activeMicrophoneTrack : Option LiveTrack
  activeCameraTrack : Option LiveTrack
deriving DecidableEq, Repr

/-- Externally visible actions of the device registry. -/
inductive DevEvent
  | platformEnumerate
  | persistToggles (microphoneEnabled cameraEnabled : Bool)
deriving DecidableEq, Repr

/-- Computed signal `hasEnabledInput`. -/
def hasEnabledInput (s : DevState) : Bool :=
  (s.microphoneEnabled && s.selectedMicrophoneKey.isSome) ||
    (s.cameraEnabled && s.selectedCameraKey.isSome)

/-- JavaScript `String.prototype.trim()`: strip whitespace from both ends. -/
def jsTrim (s : String) : String :=
  String.mk
    (((s.data.dropWhile Char.isWhitespace).reverse.dropWhile Char.isWhitespace).reverse)

/-- JavaScript `toLowerCase()` on one character (ASCII range). -/
def jsCharToLower (c : Char) : Char :=
  if 'A' ≤ c ∧ c ≤ 'Z' then Char.ofNat (c.toNat + 32) else c

/-- JavaScript `String.prototype.toLowerCase()`. -/
def jsToLower (s : String) : String :=
  String.mk (s.data.map jsCharToLower)

/-- createSelectionKey: id-based key for devices with a non-empty trimmed id,
otherwise a default key built from group id, normalized label and the
enumeration index. -/
def createSelectionKey (d : PlatformDevice) (kind : MediaDeviceKind)
    (index : Nat) : String :=
  let normalizedDeviceId := jsTrim d.deviceId
  if normalizedDeviceId.length > 0 then
    kindToString kind ++ ":id:" ++ normalizedDeviceId
  else
    let normalizedGroupId :=
      if jsTrim d.groupId = "" then "no-group" else jsTrim d.groupId
    let normalizedLabel :=
      if jsToLower (jsTrim d.label) = "" then "__EMPTY_DEVICE_ID__"
      else jsToLower (jsTrim d.label)
    kindToString kind ++ ":default:" ++ normalizedGroupId ++ ":" ++
      normalizedLabel ++ ":" ++ Nat.repr index

/-- Fallback label `Camera ${index + 1}` / `Microphone ${index + 1}`. -/
def defaultDeviceLabel (kind : MediaDeviceKind) (n : Nat) : String :=
  match kind with
  | MediaDeviceKind.videoinput => "Camera " ++ Nat.repr n
  | MediaDeviceKind.audioinput => "Microphone " ++ Nat.repr n

/-- The per-kind device list built by `enumerateDevices` from the platform
list: filter by kind, then map with the enumeration index. -/
def enumeratedDevices (kind : MediaDeviceKind) (ds : List PlatformDevice) :
    List MediaInputDevice :=
  (ds.filter (fun d => decide (d.kind = kind))).mapIdx (fun i d =>
    { selectionKey := createSelectionKey d kind i
      deviceId := d.deviceId
      label := if d.label = "" then defaultDeviceLabel kind (i + 1) else d.label
      kind := kind
      groupId := d.groupId })

/-- isSelectionAvailable: does a key occur in the latest enumerated list of
its kind. -/
def isSelectionAvailable (s : DevState) (selectionKey : String)
    (kind : MediaDeviceKind) : Bool :=
  let devices :=
    match kind with
    | MediaDeviceKind.videoinput => s.availableCameras
    | MediaDeviceKind.audioinput => s.availableMicrophones
  devices.any (fun d => decide (d.selectionKey = selectionKey))

/-- ensurePermissionPromptState: promote to `prompt` when an input is
enabled+selected and the state is neither granted nor denied; collapse
`prompt` back to `unknown` when no input is enabled+selected. -/
def ensurePermissionPromptState (s : DevState) : DevState :=
  let s1 :=
    if hasEnabledInput s &&
        (decide (s.permissionState ≠ MediaPermissionState.granted) &&
          decide (s.permissionState ≠ MediaPermissionState.denied)) then
      { s with permissionState := MediaPermissionState.prompt }
    else s
  if !hasEnabledInput s1 &&
      decide (s1.permissionState = MediaPermissionState.prompt) then
    { s1 with permissionState := MediaPermissionState.unknown }
  else s1

/-- applyDesiredStateToActiveTracks: push the enable flags onto any attached
track whose readyState is live. -/
def applyDesiredStateToActiveTracks (s : DevState) : DevState :=
  { s with
    activeMicrophoneTrack :=
      s.activeMicrophoneTrack.map (fun t =>
        if t.readyState = TrackReadyState.live then
          { t with enabled := s.microphoneEnabled }
        else t)
    activeCameraTrack :=
      s.activeCameraTrack.map (fun t =>
        if t.readyState = TrackReadyState.live then
          { t with enabled := s.cameraEnabled }
        else t) }

/-- validateSelectedDevices: clear a selection key together with its enable
flag when the key is absent from the refreshed list, then realign the
permission state. -/
def validateSelectedDevices (s : DevState) : DevState :=
  let s1 :=
    match s.selectedCameraKey with
    | none => s
    | some k =>
      if isSelectionAvailable s k MediaDeviceKind.videoinput then s
      else { s with selectedCameraKey := none, cameraEnabled := false }
  let s2 :=
    match s1.selectedMicrophoneKey with
    | none => s1
    | some k =>
      if isSelectionAvailable s1 k MediaDeviceKind.audioinput then s1
      else { s1 with selectedMicrophoneKey := none, microphoneEnabled := false }
  ensurePermissionPromptState s2

/-- Operations of the device registry that change selections or enable
flags.  `enumerate` carries the platform support flag and the outcome of
`navigator.mediaDevices.enumerateDevices()`. -/
inductive DevOp
  | selectCamera (key : String)
  | selectMicrophone (key : String)
  | setMicrophoneEnabled (enabled : Bool)
  | setCameraEnabled (enabled : Bool)
  | enumerate (supported : Bool) (result : Except JsError (List PlatformDevice))
deriving Repr

/-- One step of the device registry. -/
def applyDevOp (op : DevOp) (s : DevState) : DevState × List DevEvent :=
  match op with
  | DevOp.selectCamera key =>
    if isSelectionAvailable s key MediaDeviceKind.videoinput then
      (ensurePermissionPromptState
        { s with selectedCameraKey := some key, errorMessage := none }, [])
    else
      ({ s with errorMessage := some "Selected camera is no longer available" }, [])
  | DevOp.selectMicrophone key =>
    if isSelectionAvailable s key MediaDeviceKind.audioinput then
      (ensurePermissionPromptState
        { s with selectedMicrophoneKey := some key, errorMessage := none }, [])
    else
      ({ s with errorMessage := some "Selected microphone is no longer available" }, [])
  | DevOp.setMicrophoneEnabled enabled =>
    if enabled && s.selectedMicrophoneKey.isNone then
      ({ s with errorMessage := some "Select a microphone first, then enable it" }, [])
    else
      let s1 := applyDesiredStateToActiveTracks { s with microphoneEnabled := enabled }
      let s2 := { ensurePermissionPromptState s1 with errorMessage := none }
      (s2, [DevEvent.persistToggles s2.microphoneEnabled s2.cameraEnabled])
  | DevOp.setCameraEnabled enabled =>
    if enabled && s.selectedCameraKey.isNone then
      ({ s with errorMessage := some "Select a camera first, then enable it" }, [])
    else
      let s1 := applyDesiredStateToActiveTracks { s with cameraEnabled := enabled }
      let s2 := { ensurePermissionPromptState s1 with errorMessage := none }
      (s2, [DevEvent.persistToggles s2.microphoneEnabled s2.cameraEnabled])
  | DevOp.enumerate supported result =>
    if !supported then
      ({ s with errorMessage := some "Media Devices API not available" }, [])
    else
      let s1 := { s with isEnumerating := true, errorMessage := none }
      match result with
      | Except.error e =>
        ({ s1 with
            errorMessage := some (errorMessageOf e "Failed to enumerate devices")
            isEnumerating := false }, [DevEvent.platformEnumerate])
      | Except.ok ds =>
        let s2 := { s1 with
          availableCameras := enumeratedDevices MediaDeviceKind.videoinput ds
          availableMicrophones := enumeratedDevices MediaDeviceKind.audioinput ds }
        let s3 := validateSelectedDevices s2
        ({ s3 with isEnumerating := false }, [DevEvent.platformEnumerate])

/-! ### Recording session (`RecordingSessionService`) -/

/-- A `MediaRecorder` instance: the stream handed to it and the explicitly
requested mime type, if any. -/
structure Recorder where
  stream : List Track
  mimeType : Option String
deriving DecidableEq, Repr

/-- State of `RecordingSessionService` (signals plus private fields);
chunks are represented by their byte sizes. -/
structure SessionState where
  recordingStatus : RecordingStatus
  errorMessage : Option String
  statusMessage : Option String
  screenStream : Option (List Track)
  deviceStream : Option (List Track)
  recordingStream : Option (List Track)
  mediaRecorder : Option Recorder
  chunks : List Nat
deriving DecidableEq, Repr

/-- getUserMedia constraint for one kind: absent, generic (`true`), or an
exact device id. -/
inductive Constraint
  | off
  | generic
  | exact (deviceId : String)
deriving DecidableEq, Repr

/-- Externally visible actions of the recording session. -/
inductive SessionEvent
  | getDisplayMedia
  | getUserMedia (video audio : Constraint)
  | attachTracks (microphoneTrack cameraTrack : Option Track)
  | clearActiveTracks
  | trackStop (t : Track)
  | recorderStart (timesliceMs : Nat)
  | recorderStop
  | saveRecording (size : Nat) (mimeType : String) (filename : String)
  | refreshRecordings
deriving DecidableEq, Repr

/-- Environment for one `startRecording` run: the device-registry readings
and the outcomes of the platform calls. -/
structure StartEnv where
  screenSharingEnabled : Bool
  cameraEnabled : Bool
  microphoneEnabled : Bool
  selectedCamera : Option MediaInputDevice
  selectedMicrophone : Option MediaInputDevice
  displayMediaResult : Except JsError (List Track)
  userMediaResult : Except JsError (List Track)
  isTypeSupported : String → Bool

/-- Environment for one `stopRecording` run. -/
structure StopEnv where
  stopSucceeds : Bool
  reportedDefaultMimeType : String
  nowIso : String
  saveResult : Except JsError Unit
  refreshResult : Except JsError Unit

/-- Video tracks of a stream (`getVideoTracks`). -/
def videoTracks (ts : List Track) : List Track :=
  ts.filter (fun t => decide (t.kind = TrackKind.video))

/-- Audio tracks of a stream (`getAudioTracks`). -/
def audioTracks (ts : List Track) : List Track :=
  ts.filter (fun t => decide (t.kind = TrackKind.audio))

/-- Capture intent computed at the top of `startRecording`. -/
structure StartFlags where
  captureScreen : Bool
  captureCamera : Bool
  captureMicrophone : Bool
deriving DecidableEq, Repr

/-- Intent: screen wins over camera; camera and microphone additionally
need an enabled flag and a selected device. -/
def computeStartFlags (env : StartEnv) : StartFlags :=
  { captureScreen := env.screenSharingEnabled
    captureCamera :=
      !env.screenSharingEnabled && env.cameraEnabled && env.selectedCamera.isSome
    captureMicrophone := env.microphoneEnabled && env.selectedMicrophone.isSome }

/-- isScreenSelectionCanceled: a DOMException named NotAllowedError or
AbortError. -/
def isScreenSelectionCanceled (e : JsError) : Bool :=
  match e with
  | JsError.domException name _ =>
    decide (name = "NotAllowedError") || decide (name = "AbortError")
  | _ => false

/-- buildDeviceConstraints: exact-id constraint when the selected device's
trimmed id is non-empty, generic otherwise; off when capture of that kind
is not requested. -/
def buildDeviceConstraints (selectedCamera selectedMicrophone : Option MediaInputDevice)
    (includeCamera includeMicrophone : Bool) : Constraint × Constraint :=
  let selectedCameraId :=
    match selectedCamera with
    | some c => if jsTrim c.deviceId = "" then none else some (jsTrim c.deviceId)
    | none => none
  let selectedMicrophoneId :=
    match selectedMicrophone with
    | some m => if jsTrim m.deviceId = "" then none else some (jsTrim m.deviceId)
    | none => none
  let video :=
    if includeCamera && selectedCamera.isSome then
      match selectedCameraId with
      | some i => Constraint.exact i
      | none => Constraint.generic
    else Constraint.off
  let audio :=
    if includeMicrophone && selectedMicrophone.isSome then
      match selectedMicrophoneId with
      | some i => Constraint.exact i
      | none => Constraint.generic
    else Constraint.off
  (video, audio)

/-- resolveSupportedMimeType: first supported candidate, else none. -/
def resolveSupportedMimeType (isTypeSupported : String → Bool) : Option String :=
  ["video/webm;codecs=vp9,opus", "video/webm;codecs=vp8,opus", "video/webm"].find?
    isTypeSupported

/-- Timestamp sanitization `iso.replace(/[:.]/g, '-')`. -/
def sanitizeTimestamp (iso : String) : String :=
  String.mk (iso.data.map (fun c => if c = ':' || c = '.' then '-' else c))

/-- createFilename: `recording-<sanitized ISO timestamp>.webm`. -/
def createFilename (nowIso : String) : String :=
  "recording-" ++ sanitizeTimestamp nowIso ++ ".webm"

/-- Stop events for every track of an owned stream. -/
def trackStops (stream : Option (List Track)) : List SessionEvent :=
  (stream.getD []).map SessionEvent.trackStop

/-- cleanupSession: drop recorder and chunks, stop and null every owned
stream, clear the registry's live-track attachment. -/
def cleanupSession (s : SessionState) : SessionState × List SessionEvent :=
  ({ s with
      mediaRecorder := none
      chunks := []
      recordingStream := none
      deviceStream := none
      screenStream := none },
    trackStops s.recordingStream ++ trackStops s.deviceStream ++
      trackStops s.screenStream ++ [SessionEvent.clearActiveTracks])

/-- Catch-block of `startRecording`: cleanup, then error status and message. -/
def startFail (s : SessionState) (evs : List SessionEvent) (e : JsError) :
    SessionState × List SessionEvent :=
  let p := cleanupSession s
  ({ p.1 with
      recordingStatus := RecordingStatus.error
      errorMessage := some (errorMessageOf e "Unable to start recording") },
    evs ++ p.2)

/-- Steps 5–8 of `startRecording`: pick device tracks, compose the output
stream, attach live tracks, create and start the recorder. -/
def startCompose (env : StartEnv) (flags : StartFlags) (s : SessionState)
    (evs : List SessionEvent) (screenVideoTrack : Option Track)
    (rs0 : List Track) : SessionState × List SessionEvent :=
  let microphoneTrack := (audioTracks (s.deviceStream.getD [])).head?
  let cameraTrack := (videoTracks (s.deviceStream.getD [])).head?
  let rs1 :=
    if screenVideoTrack.isNone && cameraTrack.isSome then rs0 ++ cameraTrack.toList
    else rs0
  if screenVideoTrack.isNone && cameraTrack.isNone &&
      (flags.captureScreen || flags.captureCamera) then
    startFail { s with recordingStream := some rs1 } evs
      (JsError.jsError "Video track is unavailable for recording")
  else
    let rs2 := rs1 ++ microphoneTrack.toList
    let mime := resolveSupportedMimeType env.isTypeSupported
    let s2 := { s with
      recordingStream := some rs2
      chunks := []
      mediaRecorder := some { stream := rs2, mimeType := mime }
      recordingStatus := RecordingStatus.recording }
    (s2, evs ++ [SessionEvent.attachTracks microphoneTrack cameraTrack,
                 SessionEvent.recorderStart 1000])

/-- Steps 3–4 of `startRecording`: create the output stream, add the screen
video track, acquire the combined device stream when needed. -/
def startAfterScreen (env : StartEnv) (flags : StartFlags) (s : SessionState)
    (evs : List SessionEvent) : SessionState × List SessionEvent :=
  let screenVideoTrack := (videoTracks (s.screenStream.getD [])).head?
  let rs0 : List Track := screenVideoTrack.toList
  let s1 := { s with recordingStream := some rs0 }
  let c := buildDeviceConstraints env.selectedCamera env.selectedMicrophone
    flags.captureCamera flags.captureMicrophone
  if c.1 ≠ Constraint.off || c.2 ≠ Constraint.off then
    match env.userMediaResult with
    | Except.error e =>
      startFail s1 (evs ++ [SessionEvent.getUserMedia c.1 c.2]) e
    | Except.ok dts =>
      startCompose env flags { s1 with deviceStream := some dts }
        (evs ++ [SessionEvent.getUserMedia c.1 c.2]) screenVideoTrack rs0
  else
    startCompose env flags s1 evs screenVideoTrack rs0

/-- startRecording: no-op unless idle; compute intent; fail when no source
is enabled; acquire the screen stream (user cancel is a non-error exit);
then compose and start the recorder. -/
def startRecording (env : StartEnv) (s : SessionState) :
    SessionState × List SessionEvent :=
  if s.recordingStatus ≠ RecordingStatus.idle then (s, [])
  else
    let s1 := { s with
      recordingStatus := RecordingStatus.starting
      errorMessage := none
      statusMessage := none }
    let flags := computeStartFlags env
    if !flags.captureScreen && !flags.captureCamera && !flags.captureMicrophone then
      startFail s1 [] (JsError.jsError "Enable screen sharing, camera, or microphone first")
    else if flags.captureScreen then
      match env.displayMediaResult with
      | Except.error e =>
        if isScreenSelectionCanceled e then
          ({ s1 with
              recordingStatus := RecordingStatus.idle
              statusMessage := some "Screen sharing selection was canceled" },
            [SessionEvent.getDisplayMedia])
        else startFail s1 [SessionEvent.getDisplayMedia] e
      | Except.ok ts =>
        startAfterScreen env flags { s1 with screenStream := some ts }
          [SessionEvent.getDisplayMedia]
    else
      startAfterScreen env flags s1 []

/-- stopRecording: no-op unless recording with a live recorder; finalize the
blob, save it and refresh the listing when non-empty, then transition and
always clean up. -/
def stopRecording (env : StopEnv) (s : SessionState) :
    SessionState × List SessionEvent :=
  match s.mediaRecorder with
  | none => (s, [])
  | some r =>
    if s.recordingStatus ≠ RecordingStatus.recording then (s, [])
    else
      let s1 := { s with recordingStatus := RecordingStatus.stopping }
      if !env.stopSucceeds then
        let s2 := { s1 with
          recordingStatus := RecordingStatus.error
          errorMessage := some "Recorder failed while stopping" }
        let p := cleanupSession s2
        (p.1, SessionEvent.recorderStop :: p.2)
      else
        let reported :=
          match r.mimeType with
          | some m => m
          | none => env.reportedDefaultMimeType
        let blobType := if reported = "" then "video/webm" else reported
        let blobSize := s.chunks.sum
        if blobSize > 0 then
          let filename := createFilename env.nowIso
          match env.saveResult with
          | Except.error e =>
            let s2 := { s1 with
              recordingStatus := RecordingStatus.error
              errorMessage := some (errorMessageOf e "Unable to stop recording") }
            let p := cleanupSession s2
            (p.1, SessionEvent.recorderStop ::
              SessionEvent.saveRecording blobSize blobType filename :: p.2)
          | Except.ok _ =>
            match env.refreshResult with
            | Except.error e =>
              let s2 := { s1 with
                recordingStatus := RecordingStatus.error
                errorMessage := some (errorMessageOf e "Unable to stop recording") }
              let p := cleanupSession s2
              (p.1, SessionEvent.recorderStop ::
                SessionEvent.saveRecording blobSize blobType filename ::
                SessionEvent.refreshRecordings :: p.2)
            | Except.ok _ =>
              let s2 := { s1 with
                recordingStatus := RecordingStatus.idle
                errorMessage := none }
              let p := cleanupSession s2
              (p.1, SessionEvent.recorderStop ::
                SessionEvent.saveRecording blobSize blobType filename ::
                SessionEvent.refreshRecordings :: p.2)
        else
          let s2 := { s1 with
            recordingStatus := RecordingStatus.idle
            errorMessage := none }
          let p := cleanupSession s2
          (p.1, SessionEvent.recorderStop :: p.2)

/-- clearError: leave `error` for `idle`, keep any other status, clear both
messages. -/
def clearError (s : SessionState) : SessionState × List SessionEvent :=
  let s1 :=
    if s.recordingStatus = RecordingStatus.error then
      { s with recordingStatus := RecordingStatus.idle }
    else s
  ({ s1 with errorMessage := none, statusMessage := none }, [])

/-- Platform capture calls among the session events. -/
def isPlatformCaptureCall (e : SessionEvent) : Bool :=
  match e with
  | SessionEvent.getDisplayMedia => true
  | SessionEvent.getUserMedia _ _ => true
  | _ => false

/-- Container part of a mime type: between the slash and a `;` or the end
(spec wording for the container-extension correspondence of claim C1). -/
def mimeContainer (m : String) : String :=
  String.mk (((m.data.dropWhile (fun c => c ≠ '/')).drop 1).takeWhile
    (fun c => c ≠ ';'))

/-- Extension of a filename: the part after the last dot. -/
def extensionOf (filename : String) : String :=
  String.mk (((filename.data.reverse.takeWhile (fun c => c ≠ '.'))).reverse)

/-- Save events among the session events. -/
def isSaveEvent (e : SessionEvent) : Bool :=
  match e with
  | SessionEvent.saveRecording _ _ _ => true
  | _ => false

/-- Refresh-listing events among the session events. -/
def isRefreshEvent (e : SessionEvent) : Bool :=
  match e with
  | SessionEvent.refreshRecordings => true
  | _ => false

/-! ### Concrete sample inputs used by witnesses and counterexamples -/

/-- A concrete audio track. -/
def sampleAudioTrack : Track := { id := 7, kind := TrackKind.audio }

/-- A concrete video track. -/
def sampleVideoTrack : Track := { id := 8, kind := TrackKind.video }

/-- A pristine idle session. -/
def sessionIdle : SessionState :=
  { recordingStatus := RecordingStatus.idle
    errorMessage := none
    statusMessage := none
    screenStream := none
    deviceStream := none
    recordingStream := none
    mediaRecorder := none
    chunks := [] }

/-- A concrete selected microphone. -/
def sampleMicrophone : MediaInputDevice :=
  { selectionKey := "audioinput:id:m1"
    deviceId := "m1"
    label := "Mic"
    kind := MediaDeviceKind.audioinput
    groupId := "g" }

/-- Start environment: microphone enabled and selected, nothing else. -/
def startEnvMicOnly : StartEnv :=
  { screenSharingEnabled := false
    cameraEnabled := false
    microphoneEnabled := true
    selectedCamera := none
    selectedMicrophone := some sampleMicrophone
    displayMediaResult := Except.ok []
    userMediaResult := Except.ok [sampleAudioTrack]
    isTypeSupported := fun _ => true }

/-- Start environment with no enabled source at all. -/
def startEnvNone : StartEnv :=
  { startEnvMicOnly with microphoneEnabled := false }

/-- Start environment in which the user cancels the screen picker. -/
def startEnvCancel : StartEnv :=
  { startEnvMicOnly with
    screenSharingEnabled := true
    displayMediaResult :=
      Except.error (JsError.domException "NotAllowedError" "Permission denied") }

/-- Start environment with screen sharing enabled and a screen track granted. -/
def startEnvScreen : StartEnv :=
  { startEnvMicOnly with
    screenSharingEnabled := true
    displayMediaResult := Except.ok [sampleVideoTrack] }

/-- A session in the middle of recording a microphone-only stream. -/
def sessionRecording : SessionState :=
  { sessionIdle with
    recordingStatus := RecordingStatus.recording
    mediaRecorder := some { stream := [sampleAudioTrack], mimeType := none }
    recordingStream := some [sampleAudioTrack]
    deviceStream := some [sampleAudioTrack]
    chunks := [5, 3] }

/-- Stop environment whose platform default container is mp4 (the recorder
was created without an explicit mime type and reports `video/mp4`). -/
def stopEnvDefaultMp4 : StopEnv :=
  { stopSucceeds := true
    reportedDefaultMimeType := "video/mp4"
    nowIso := "2026-10-11T01:02:03.456Z"
    saveResult := Except.ok ()
    refreshResult := Except.ok () }

/-- A fresh device-registry state. -/
def devStateInit : DevState :=
  { availableCameras := []
    availableMicrophones := []
    selectedCameraKey := none
    selectedMicrophoneKey := none
    isEnumerating := false
    permissionState := MediaPermissionState.unknown
    errorMessage := none
    microphoneEnabled := true
    cameraEnabled := false
    activeMicrophoneTrack := none
    activeCameraTrack := none }

/-- A registry state with a selected+enabled microphone and a live track. -/
def devStateMicSelected : DevState :=
  { devStateInit with
    availableMicrophones :=
      [{ selectionKey := "audioinput:id:m1", deviceId := "m1", label := "Mic",
         kind := MediaDeviceKind.audioinput, groupId := "g" }]
    selectedMicrophoneKey := some "audioinput:id:m1"
    microphoneEnabled := true
    permissionState := MediaPermissionState.prompt
    errorMessage := some "old"
    activeMicrophoneTrack := some { readyState := TrackReadyState.live, enabled := true } }

/-- Two distinct platform cameras whose raw ids differ only by whitespace:
their trimmed ids collide, so their id-form selection keys collide. -/
def collidingCameras : List PlatformDevice :=
  [{ deviceId := "cam", label := "Front", kind := MediaDeviceKind.videoinput, groupId := "g1" },
   { deviceId := " cam ", label := "Back", kind := MediaDeviceKind.videoinput, groupId := "g2" }]

/-- A platform device list with one camera and two microphones. -/
def samplePlatformDevices : List PlatformDevice :=
  [{ deviceId := "c1", label := "Cam", kind := MediaDeviceKind.videoinput, groupId := "g" },
   { deviceId := "m2", label := "Mic2", kind := MediaDeviceKind.audioinput, groupId := "g" },
   { deviceId := "", label := "", kind := MediaDeviceKind.audioinput, groupId := "" }]

/-- Decimal digit-string value, used to reason about `Nat.repr`. -/
def digitsVal (l : List Char) : Nat :=
  l.foldl (fun a c => 10 * a + (c.toNat - 48)) 0

/-- Suffix of a character list after its last colon. -/
def afterLastColon (l : List Char) : List Char :=
  (l.reverse.takeWhile (fun c => decide (c ≠ ':'))).reverse

/-! ## Helper lemmas -/

theorem trackStops_filter_capture (o : Option (List Track)) :
    (trackStops o).filter isPlatformCaptureCall = [] := by
  simp only [trackStops]
  induction o.getD [] with
  | nil => rfl
  | cons t ts ih => simp [isPlatformCaptureCall, ih]

theorem trackStops_countP_save (o : Option (List Track)) :
    (trackStops o).countP isSaveEvent = 0 := by
  simp only [trackStops]
  induction o.getD [] with
  | nil => rfl
  | cons t ts ih => simp [isSaveEvent, List.countP_cons, ih]

theorem trackStops_countP_refresh (o : Option (List Track)) :
    (trackStops o).countP isRefreshEvent = 0 := by
  simp only [trackStops]
  induction o.getD [] with
  | nil => rfl
  | cons t ts ih => simp [isRefreshEvent, List.countP_cons, ih]

theorem ensurePPS_frame (s : DevState) :
    (ensurePermissionPromptState s).availableCameras = s.availableCameras ∧
    (ensurePermissionPromptState s).availableMicrophones = s.availableMicrophones ∧
    (ensurePermissionPromptState s).selectedCameraKey = s.selectedCameraKey ∧
    (ensurePermissionPromptState s).selectedMicrophoneKey = s.selectedMicrophoneKey ∧
    (ensurePermissionPromptState s).isEnumerating = s.isEnumerating ∧
    (ensurePermissionPromptState s).errorMessage = s.errorMessage ∧
    (ensurePermissionPromptState s).microphoneEnabled = s.microphoneEnabled ∧
    (ensurePermissionPromptState s).cameraEnabled = s.cameraEnabled ∧
    (ensurePermissionPromptState s).activeMicrophoneTrack = s.activeMicrophoneTrack ∧
    (ensurePermissionPromptState s).activeCameraTrack = s.activeCameraTrack := by
  unfold ensurePermissionPromptState
  split <;> dsimp only <;> split <;> simp

theorem ensurePPS_availableCameras (s : DevState) :
    (ensurePermissionPromptState s).availableCameras = s.availableCameras :=
  (ensurePPS_frame s).1

theorem ensurePPS_availableMicrophones (s : DevState) :
    (ensurePermissionPromptState s).availableMicrophones = s.availableMicrophones :=
  (ensurePPS_frame s).2.1

theorem ensurePPS_selectedCameraKey (s : DevState) :
    (ensurePermissionPromptState s).selectedCameraKey = s.selectedCameraKey :=
  (ensurePPS_frame s).2.2.1

theorem ensurePPS_selectedMicrophoneKey (s : DevState) :
    (ensurePermissionPromptState s).selectedMicrophoneKey = s.selectedMicrophoneKey :=
  (ensurePPS_frame s).2.2.2.1

theorem ensurePPS_isEnumerating (s : DevState) :
    (ensurePermissionPromptState s).isEnumerating = s.isEnumerating :=
  (ensurePPS_frame s).2.2.2.2.1

theorem ensurePPS_errorMessage (s : DevState) :
    (ensurePermissionPromptState s).errorMessage = s.errorMessage :=
  (ensurePPS_frame s).2.2.2.2.2.1

theorem ensurePPS_microphoneEnabled (s : DevState) :
    (ensurePermissionPromptState s).microphoneEnabled = s.microphoneEnabled :=
  (ensurePPS_frame s).2.2.2.2.2.2.1

theorem ensurePPS_cameraEnabled (s : DevState) :
    (ensurePermissionPromptState s).cameraEnabled = s.cameraEnabled :=
  (ensurePPS_frame s).2.2.2.2.2.2.2.1

theorem ensurePPS_activeMicrophoneTrack (s : DevState) :
    (ensurePermissionPromptState s).activeMicrophoneTrack = s.activeMicrophoneTrack :=
  (ensurePPS_frame s).2.2.2.2.2.2.2.2.1

theorem ensurePPS_activeCameraTrack (s : DevState) :
    (ensurePermissionPromptState s).activeCameraTrack = s.activeCameraTrack :=
  (ensurePPS_frame s).2.2.2.2.2.2.2.2.2

theorem hasEnabledInput_ensurePPS (s : DevState) :
    hasEnabledInput (ensurePermissionPromptState s) = hasEnabledInput s := by
  obtain ⟨-, -, h3, h4, -, -, h7, h8, -, -⟩ := ensurePPS_frame s
  simp [hasEnabledInput, h3, h4, h7, h8]

theorem hasEnabledInput_set_perm (m : DevState) (p : MediaPermissionState) :
    hasEnabledInput { m with permissionState := p } = hasEnabledInput m := rfl

theorem ensurePPS_post (m : DevState) :
    ((ensurePermissionPromptState m).permissionState = MediaPermissionState.prompt →
      hasEnabledInput (ensurePermissionPromptState m) = true) ∧
    (m.permissionState = MediaPermissionState.granted →
      (ensurePermissionPromptState m).permissionState = MediaPermissionState.granted) ∧
    (m.permissionState = MediaPermissionState.denied →
      (ensurePermissionPromptState m).permissionState = MediaPermissionState.denied) ∧
    (m.permissionState = MediaPermissionState.prompt →
      hasEnabledInput (ensurePermissionPromptState m) = false →
      (ensurePermissionPromptState m).permissionState = MediaPermissionState.unknown) := by
  rw [hasEnabledInput_ensurePPS]
  unfold ensurePermissionPromptState
  cases hp : m.permissionState <;> cases h1 : hasEnabledInput m <;>
    simp [hp, h1, hasEnabledInput_set_perm]

/-! ## Claims about the recording session -/

/-- C8: `stopRecording` outside the `recording` status is a no-op: the state
is returned unchanged and no event (teardown included) is emitted. -/
theorem claim_C8_stop_noop (env : StopEnv) (s : SessionState)
    (h : s.recordingStatus ≠ RecordingStatus.recording) :
    stopRecording env s = (s, []) := by
  cases hm : s.mediaRecorder <;> simp [stopRecording, hm, h]

/-- Witness for C8 at a concrete idle session. -/
theorem claim_C8_stop_noop_witness :
    stopRecording stopEnvDefaultMp4 sessionIdle = (sessionIdle, []) :=
  claim_C8_stop_noop stopEnvDefaultMp4 sessionIdle (by decide)

/-- C10: `clearError` clears both messages from every state, moves the
status from `error` to `idle` and otherwise leaves it alone, touches no
owned resource, and emits no event. -/
theorem claim_C10_clearError (s : SessionState) :
    (clearError s).1.errorMessage = none ∧
    (clearError s).1.statusMessage = none ∧
    (clearError s).1.recordingStatus =
      (if s.recordingStatus = RecordingStatus.error then RecordingStatus.idle
       else s.recordingStatus) ∧
    (clearError s).1.screenStream = s.screenStream ∧
    (clearError s).1.deviceStream = s.deviceStream ∧
    (clearError s).1.recordingStream = s.recordingStream ∧
    (clearError s).1.mediaRecorder = s.mediaRecorder ∧
    (clearError s).1.chunks = s.chunks ∧
    (clearError s).2 = [] := by
  by_cases h : s.recordingStatus = RecordingStatus.error <;> simp [clearError, h]

/-- C2: user cancel of the screen picker is a non-error exit: back to idle,
informational status message, no error message, and no step beyond the
single display-capture request. -/
theorem claim_C2_cancel (env : StartEnv) (s : SessionState) (e : JsError)
    (hidle : s.recordingStatus = RecordingStatus.idle)
    (hscr : env.screenSharingEnabled = true)
    (hdisp : env.displayMediaResult = Except.error e)
    (hcancel : isScreenSelectionCanceled e = true) :
    (startRecording env s).1.recordingStatus = RecordingStatus.idle ∧
    (startRecording env s).1.statusMessage =
      some "Screen sharing selection was canceled" ∧
    (startRecording env s).1.errorMessage = none ∧
    (startRecording env s).2 = [SessionEvent.getDisplayMedia] := by
  simp [startRecording, computeStartFlags, hidle, hscr, hdisp, hcancel]

/-- Witness for C2 at a concrete cancel environment. -/
theorem claim_C2_cancel_witness :
    (startRecording startEnvCancel sessionIdle).1.recordingStatus =
      RecordingStatus.idle ∧
    (startRecording startEnvCancel sessionIdle).1.statusMessage =
      some "Screen sharing selection was canceled" ∧
    (startRecording startEnvCancel sessionIdle).1.errorMessage = none ∧
    (startRecording startEnvCancel sessionIdle).2 =
      [SessionEvent.getDisplayMedia] :=
  claim_C2_cancel startEnvCancel sessionIdle
    (JsError.domException "NotAllowedError" "Permission denied")
    rfl rfl rfl (by decide)

/-- C3: with no capture source enabled, `startRecording` makes no platform
capture call and ends in `error` with the no-source message. -/
theorem claim_C3_no_source (env : StartEnv) (s : SessionState)
    (hidle : s.recordingStatus = RecordingStatus.idle)
    (hscr : (computeStartFlags env).captureScreen = false)
    (hcam : (computeStartFlags env).captureCamera = false)
    (hmic : (computeStartFlags env).captureMicrophone = false) :
    (startRecording env s).1.recordingStatus = RecordingStatus.error ∧
    (startRecording env s).1.errorMessage =
      some "Enable screen sharing, camera, or microphone first" ∧
    ((startRecording env s).2).filter isPlatformCaptureCall = [] := by
  simp only [startRecording, hidle]
  simp only [hscr, hcam, hmic]
  simp [startFail, cleanupSession, errorMessageOf, List.filter_append,
    trackStops_filter_capture, isPlatformCaptureCall]

/-- Witness for C3 at a concrete all-disabled environment. -/
theorem claim_C3_no_source_witness :
    (startRecording startEnvNone sessionIdle).1.recordingStatus =
      RecordingStatus.error ∧
    (startRecording startEnvNone sessionIdle).1.errorMessage =
      some "Enable screen sharing, camera, or microphone first" ∧
    ((startRecording startEnvNone sessionIdle).2).filter isPlatformCaptureCall = [] :=
  claim_C3_no_source startEnvNone sessionIdle rfl (by decide) (by decide) (by decide)

/-! ## Claims about the device registry -/

/-- C9: disabling is never rejected.  `setMicrophoneEnabled false` and
`setCameraEnabled false` always succeed, whether or not a device of that
kind is selected: the enable flag goes to false, the new state is pushed
onto the attached live track, the error message is cleared, and the
toggle pair is persisted. -/
theorem claim_C9_disable_never_rejected (s : DevState) :
    ((applyDevOp (DevOp.setMicrophoneEnabled false) s).1.microphoneEnabled = false ∧
      (applyDevOp (DevOp.setMicrophoneEnabled false) s).1.errorMessage = none ∧
      (applyDevOp (DevOp.setMicrophoneEnabled false) s).1.activeMicrophoneTrack =
        s.activeMicrophoneTrack.map (fun t =>
          if t.readyState = TrackReadyState.live then { t with enabled := false }
          else t) ∧
      (applyDevOp (DevOp.setMicrophoneEnabled false) s).2 =
        [DevEvent.persistToggles false s.cameraEnabled]) ∧
    ((applyDevOp (DevOp.setCameraEnabled false) s).1.cameraEnabled = false ∧
      (applyDevOp (DevOp.setCameraEnabled false) s).1.errorMessage = none ∧
      (applyDevOp (DevOp.setCameraEnabled false) s).1.activeCameraTrack =
        s.activeCameraTrack.map (fun t =>
          if t.readyState = TrackReadyState.live then { t with enabled := false }
          else t) ∧
      (applyDevOp (DevOp.setCameraEnabled false) s).2 =
        [DevEvent.persistToggles s.microphoneEnabled false]) := by
  simp [applyDevOp, applyDesiredStateToActiveTracks,
    ensurePPS_microphoneEnabled, ensurePPS_cameraEnabled,
    ensurePPS_activeMicrophoneTrack, ensurePPS_activeCameraTrack]


theorem validate_spec (m : DevState) :
    (validateSelectedDevices m).availableCameras = m.availableCameras ∧
    (validateSelectedDevices m).availableMicrophones = m.availableMicrophones ∧
    ((validateSelectedDevices m).selectedCameraKey,
      (validateSelectedDevices m).cameraEnabled) =
      (match m.selectedCameraKey with
       | none => (m.selectedCameraKey, m.cameraEnabled)
       | some k =>
         if isSelectionAvailable m k MediaDeviceKind.videoinput then
           (m.selectedCameraKey, m.cameraEnabled)
         else (none, false)) ∧
    ((validateSelectedDevices m).selectedMicrophoneKey,
      (validateSelectedDevices m).microphoneEnabled) =
      (match m.selectedMicrophoneKey with
       | none => (m.selectedMicrophoneKey, m.microphoneEnabled)
       | some k =>
         if isSelectionAvailable m k MediaDeviceKind.audioinput then
           (m.selectedMicrophoneKey, m.microphoneEnabled)
         else (none, false)) := by
  unfold validateSelectedDevices
  cases hc : m.selectedCameraKey <;> cases hmic : m.selectedMicrophoneKey <;>
    dsimp only <;> repeat' split <;>
    simp_all [ensurePPS_availableCameras, ensurePPS_availableMicrophones,
      ensurePPS_selectedCameraKey, ensurePPS_selectedMicrophoneKey,
      ensurePPS_cameraEnabled, ensurePPS_microphoneEnabled,
      isSelectionAvailable]

theorem isSelectionAvailable_mem_video (s : DevState) (k : String) :
    isSelectionAvailable s k MediaDeviceKind.videoinput = true ↔
      k ∈ s.availableCameras.map (fun d => d.selectionKey) := by
  simp [isSelectionAvailable, List.any_eq_true, List.mem_map]

theorem isSelectionAvailable_mem_audio (s : DevState) (k : String) :
    isSelectionAvailable s k MediaDeviceKind.audioinput = true ↔
      k ∈ s.availableMicrophones.map (fun d => d.selectionKey) := by
  simp [isSelectionAvailable, List.any_eq_true, List.mem_map]

theorem validate_clear_camera (m : DevState) (k : String)
    (hk : m.selectedCameraKey = some k)
    (hmem : k ∉ m.availableCameras.map (fun d => d.selectionKey)) :
    (validateSelectedDevices m).selectedCameraKey = none ∧
    (validateSelectedDevices m).cameraEnabled = false := by
  have hav : isSelectionAvailable m k MediaDeviceKind.videoinput = false := by
    rcases h : isSelectionAvailable m k MediaDeviceKind.videoinput
    · rfl
    · exact absurd ((isSelectionAvailable_mem_video m k).mp h) hmem
  have h := (validate_spec m).2.2.1
  rw [hk] at h
  simp only [hav, Bool.false_eq_true, if_false] at h
  exact ⟨congrArg Prod.fst h, congrArg Prod.snd h⟩

theorem validate_keep_camera (m : DevState) (k : String)
    (hk : m.selectedCameraKey = some k)
    (hmem : k ∈ m.availableCameras.map (fun d => d.selectionKey)) :
    (validateSelectedDevices m).selectedCameraKey = some k ∧
    (validateSelectedDevices m).cameraEnabled = m.cameraEnabled := by
  have hav : isSelectionAvailable m k MediaDeviceKind.videoinput = true :=
    (isSelectionAvailable_mem_video m k).mpr hmem
  have h := (validate_spec m).2.2.1
  rw [hk] at h
  simp only [hav, if_true] at h
  refine ⟨?_, congrArg Prod.snd h⟩
  have h1 := congrArg Prod.fst h
  simpa [hk] using h1

theorem validate_clear_microphone (m : DevState) (k : String)
    (hk : m.selectedMicrophoneKey = some k)
    (hmem : k ∉ m.availableMicrophones.map (fun d => d.selectionKey)) :
    (validateSelectedDevices m).selectedMicrophoneKey = none ∧
    (validateSelectedDevices m).microphoneEnabled = false := by
  have hav : isSelectionAvailable m k MediaDeviceKind.audioinput = false := by
    rcases h : isSelectionAvailable m k MediaDeviceKind.audioinput
    · rfl
    · exact absurd ((isSelectionAvailable_mem_audio m k).mp h) hmem
  have h := (validate_spec m).2.2.2
  rw [hk] at h
  simp only [hav, Bool.false_eq_true, if_false] at h
  exact ⟨congrArg Prod.fst h, congrArg Prod.snd h⟩

theorem validate_keep_microphone (m : DevState) (k : String)
    (hk : m.selectedMicrophoneKey = some k)
    (hmem : k ∈ m.availableMicrophones.map (fun d => d.selectionKey)) :
    (validateSelectedDevices m).selectedMicrophoneKey = some k ∧
    (validateSelectedDevices m).microphoneEnabled = m.microphoneEnabled := by
  have hav : isSelectionAvailable m k MediaDeviceKind.audioinput = true :=
    (isSelectionAvailable_mem_audio m k).mpr hmem
  have h := (validate_spec m).2.2.2
  rw [hk] at h
  simp only [hav, if_true] at h
  refine ⟨?_, congrArg Prod.snd h⟩
  have h1 := congrArg Prod.fst h
  simpa [hk] using h1



/-- C5: after a successful enumeration, a selected camera/microphone key
absent from the refreshed list of its kind is cleared together with its
enable flag, and a key still present is left unchanged (flag included). -/
theorem claim_C5_validation (s : DevState) (ds : List PlatformDevice) :
    (∀ k, s.selectedCameraKey = some k →
      k ∉ (applyDevOp (DevOp.enumerate true (Except.ok ds)) s).1.availableCameras.map
          (fun d => d.selectionKey) →
      (applyDevOp (DevOp.enumerate true (Except.ok ds)) s).1.selectedCameraKey = none ∧
      (applyDevOp (DevOp.enumerate true (Except.ok ds)) s).1.cameraEnabled = false) ∧
    (∀ k, s.selectedCameraKey = some k →
      k ∈ (applyDevOp (DevOp.enumerate true (Except.ok ds)) s).1.availableCameras.map
          (fun d => d.selectionKey) →
      (applyDevOp (DevOp.enumerate true (Except.ok ds)) s).1.selectedCameraKey = some k ∧
      (applyDevOp (DevOp.enumerate true (Except.ok ds)) s).1.cameraEnabled = s.cameraEnabled) ∧
    (∀ k, s.selectedMicrophoneKey = some k →
      k ∉ (applyDevOp (DevOp.enumerate true (Except.ok ds)) s).1.availableMicrophones.map
          (fun d => d.selectionKey) →
      (applyDevOp (DevOp.enumerate true (Except.ok ds)) s).1.selectedMicrophoneKey = none ∧
      (applyDevOp (DevOp.enumerate true (Except.ok ds)) s).1.microphoneEnabled = false) ∧
    (∀ k, s.selectedMicrophoneKey = some k →
      k ∈ (applyDevOp (DevOp.enumerate true (Except.ok ds)) s).1.availableMicrophones.map
          (fun d => d.selectionKey) →
      (applyDevOp (DevOp.enumerate true (Except.ok ds)) s).1.selectedMicrophoneKey = some k ∧
      (applyDevOp (DevOp.enumerate true (Except.ok ds)) s).1.microphoneEnabled =
        s.microphoneEnabled) := by
  simp only [applyDevOp, Bool.not_true, Bool.false_eq_true, if_false]
  obtain ⟨hac, ham, -, -⟩ := validate_spec { s with
    isEnumerating := true
    errorMessage := none
    availableCameras := enumeratedDevices MediaDeviceKind.videoinput ds
    availableMicrophones := enumeratedDevices MediaDeviceKind.audioinput ds }
  refine ⟨?_, ?_, ?_, ?_⟩ <;> intro k hk hmem <;>
    simp only [hac, ham] at hmem
  · exact validate_clear_camera _ k hk hmem
  · exact validate_keep_camera _ k hk hmem
  · exact validate_clear_microphone _ k hk hmem
  · exact validate_keep_microphone _ k hk hmem


/-- Witness for C5: the selected microphone key disappears from a fresh
enumeration, so selection and enable flag are cleared. -/
theorem claim_C5_validation_witness :
    (applyDevOp (DevOp.enumerate true (Except.ok samplePlatformDevices))
      devStateMicSelected).1.selectedMicrophoneKey = none ∧
    (applyDevOp (DevOp.enumerate true (Except.ok samplePlatformDevices))
      devStateMicSelected).1.microphoneEnabled = false :=
  (claim_C5_validation devStateMicSelected samplePlatformDevices).2.2.1
    "audioinput:id:m1" rfl (by decide)

theorem validate_post (m : DevState) :
    ((validateSelectedDevices m).permissionState = MediaPermissionState.prompt →
      hasEnabledInput (validateSelectedDevices m) = true) ∧
    (m.permissionState = MediaPermissionState.granted →
      (validateSelectedDevices m).permissionState = MediaPermissionState.granted) ∧
    (m.permissionState = MediaPermissionState.denied →
      (validateSelectedDevices m).permissionState = MediaPermissionState.denied) ∧
    (m.permissionState = MediaPermissionState.prompt →
      hasEnabledInput (validateSelectedDevices m) = false →
      (validateSelectedDevices m).permissionState = MediaPermissionState.unknown) := by
  have key : ∀ s2 : DevState, s2.permissionState = m.permissionState →
      ((ensurePermissionPromptState s2).permissionState = MediaPermissionState.prompt →
        hasEnabledInput (ensurePermissionPromptState s2) = true) ∧
      (m.permissionState = MediaPermissionState.granted →
        (ensurePermissionPromptState s2).permissionState = MediaPermissionState.granted) ∧
      (m.permissionState = MediaPermissionState.denied →
        (ensurePermissionPromptState s2).permissionState = MediaPermissionState.denied) ∧
      (m.permissionState = MediaPermissionState.prompt →
        hasEnabledInput (ensurePermissionPromptState s2) = false →
        (ensurePermissionPromptState s2).permissionState = MediaPermissionState.unknown) := by
    intro s2 h2
    exact ⟨(ensurePPS_post s2).1, fun h => (ensurePPS_post s2).2.1 (h2.trans h),
      fun h => (ensurePPS_post s2).2.2.1 (h2.trans h),
      fun h h2x => (ensurePPS_post s2).2.2.2 (h2.trans h) h2x⟩
  simp only [validateSelectedDevices]
  refine key _ ?_
  repeat' split
  all_goals rfl

/-- C6: across every registry operation that changes selections or enable
flags, `prompt` is only ever observed while an input is enabled+selected,
a `prompt` state collapses to `unknown` as soon as that ceases to hold,
and the adjustment never resets `granted` or `denied`. -/
theorem claim_C6_prompt_invariant (s : DevState) (op : DevOp)
    (hinv : s.permissionState = MediaPermissionState.prompt → hasEnabledInput s = true) :
    ((applyDevOp op s).1.permissionState = MediaPermissionState.prompt →
      hasEnabledInput (applyDevOp op s).1 = true) ∧
    (s.permissionState = MediaPermissionState.granted →
      (applyDevOp op s).1.permissionState = MediaPermissionState.granted) ∧
    (s.permissionState = MediaPermissionState.denied →
      (applyDevOp op s).1.permissionState = MediaPermissionState.denied) ∧
    (s.permissionState = MediaPermissionState.prompt →
      hasEnabledInput (applyDevOp op s).1 = false →
      (applyDevOp op s).1.permissionState = MediaPermissionState.unknown) := by
  cases op with
  | selectCamera key =>
    simp only [applyDevOp]
    split
    · exact ⟨(ensurePPS_post _).1, fun h => (ensurePPS_post _).2.1 h,
        fun h => (ensurePPS_post _).2.2.1 h, fun h h2 => (ensurePPS_post _).2.2.2 h h2⟩
    · exact ⟨fun h => hinv h, fun h => h, fun h => h,
        fun h h2 => Bool.noConfusion ((hinv h).symm.trans h2)⟩
  | selectMicrophone key =>
    simp only [applyDevOp]
    split
    · exact ⟨(ensurePPS_post _).1, fun h => (ensurePPS_post _).2.1 h,
        fun h => (ensurePPS_post _).2.2.1 h, fun h h2 => (ensurePPS_post _).2.2.2 h h2⟩
    · exact ⟨fun h => hinv h, fun h => h, fun h => h,
        fun h h2 => Bool.noConfusion ((hinv h).symm.trans h2)⟩
  | setMicrophoneEnabled b =>
    simp only [applyDevOp]
    split
    · exact ⟨fun h => hinv h, fun h => h, fun h => h,
        fun h h2 => Bool.noConfusion ((hinv h).symm.trans h2)⟩
    · exact ⟨(ensurePPS_post _).1, fun h => (ensurePPS_post _).2.1 h,
        fun h => (ensurePPS_post _).2.2.1 h, fun h h2 => (ensurePPS_post _).2.2.2 h h2⟩
  | setCameraEnabled b =>
    simp only [applyDevOp]
    split
    · exact ⟨fun h => hinv h, fun h => h, fun h => h,
        fun h h2 => Bool.noConfusion ((hinv h).symm.trans h2)⟩
    · exact ⟨(ensurePPS_post _).1, fun h => (ensurePPS_post _).2.1 h,
        fun h => (ensurePPS_post _).2.2.1 h, fun h h2 => (ensurePPS_post _).2.2.2 h h2⟩
  | enumerate sup res =>
    simp only [applyDevOp]
    split
    · exact ⟨fun h => hinv h, fun h => h, fun h => h,
        fun h h2 => Bool.noConfusion ((hinv h).symm.trans h2)⟩
    · cases res with
      | error e =>
        exact ⟨fun h => hinv h, fun h => h, fun h => h,
          fun h h2 => Bool.noConfusion ((hinv h).symm.trans h2)⟩
      | ok ds =>
        exact ⟨(validate_post _).1, fun h => (validate_post _).2.1 h,
          fun h => (validate_post _).2.2.1 h, fun h h2 => (validate_post _).2.2.2 h h2⟩


/-- Witness for C6: disabling the only enabled input collapses `prompt`. -/
theorem claim_C6_prompt_invariant_witness :
    (((applyDevOp (DevOp.setMicrophoneEnabled false) devStateMicSelected).1.permissionState =
        MediaPermissionState.prompt →
      hasEnabledInput (applyDevOp (DevOp.setMicrophoneEnabled false) devStateMicSelected).1 =
        true) ∧
    (devStateMicSelected.permissionState = MediaPermissionState.granted →
      (applyDevOp (DevOp.setMicrophoneEnabled false) devStateMicSelected).1.permissionState =
        MediaPermissionState.granted) ∧
    (devStateMicSelected.permissionState = MediaPermissionState.denied →
      (applyDevOp (DevOp.setMicrophoneEnabled false) devStateMicSelected).1.permissionState =
        MediaPermissionState.denied) ∧
    (devStateMicSelected.permissionState = MediaPermissionState.prompt →
      hasEnabledInput (applyDevOp (DevOp.setMicrophoneEnabled false) devStateMicSelected).1 =
        false →
      (applyDevOp (DevOp.setMicrophoneEnabled false) devStateMicSelected).1.permissionState =
        MediaPermissionState.unknown)) :=
  claim_C6_prompt_invariant devStateMicSelected (DevOp.setMicrophoneEnabled false) (by decide)

theorem mem_of_head? {α : Type} {l : List α} {a : α} (h : l.head? = some a) :
    a ∈ l := by
  cases l with
  | nil => simp at h
  | cons x xs =>
    simp at h
    simp [h]

theorem videoTracks_head_kind {ts : List Track} {t : Track}
    (h : (videoTracks ts).head? = some t) : t.kind = TrackKind.video := by
  have hm := mem_of_head? h
  simp [videoTracks, List.mem_filter] at hm
  exact hm.2

theorem audioTracks_head_kind {ts : List Track} {t : Track}
    (h : (audioTracks ts).head? = some t) : t.kind = TrackKind.audio := by
  have hm := mem_of_head? h
  simp [audioTracks, List.mem_filter] at hm
  exact hm.2

theorem videoTracks_cons_video {t : Track} (h : t.kind = TrackKind.video)
    (ts : List Track) : videoTracks (t :: ts) = t :: videoTracks ts := by
  simp [videoTracks, h]

theorem videoTracks_toList_audio {mt : Option Track}
    (h : ∀ t, mt = some t → t.kind = TrackKind.audio) :
    videoTracks mt.toList = [] := by
  cases mt with
  | none => rfl
  | some t => simp [videoTracks, h t rfl]

/-- C4: when screen sharing is enabled, camera capture intent is computed
as false, and any successfully started recorder records a stream whose
only video track is the screen stream's first video track. -/
theorem claim_C4_screen_priority (env : StartEnv) (s : SessionState)
    (hidle : s.recordingStatus = RecordingStatus.idle)
    (hscr : env.screenSharingEnabled = true)
    (hdisp : ∀ ts, env.displayMediaResult = Except.ok ts → videoTracks ts ≠ []) :
    (computeStartFlags env).captureCamera = false ∧
    ∀ r, (startRecording env s).1.recordingStatus = RecordingStatus.recording →
      (startRecording env s).1.mediaRecorder = some r →
      ∃ ts st, env.displayMediaResult = Except.ok ts ∧
        (videoTracks ts).head? = some st ∧
        videoTracks r.stream = [st] := by
  refine ⟨by simp [computeStartFlags, hscr], ?_⟩
  intro r hrec hr
  cases hd : env.displayMediaResult with
  | error e =>
    exfalso
    by_cases hc : isScreenSelectionCanceled e = true
    · simp [startRecording, computeStartFlags, hidle, hscr, hd, hc] at hrec
    · simp [startRecording, computeStartFlags, hidle, hscr, hd, hc, startFail,
        cleanupSession] at hrec
  | ok ts =>
    obtain ⟨st, hst⟩ : ∃ st, (videoTracks ts).head? = some st := by
      cases hvt : videoTracks ts with
      | nil => exact absurd hvt (hdisp ts hd)
      | cons a l => exact ⟨a, by simp [hvt]⟩
    refine ⟨ts, st, rfl, hst, ?_⟩
    have hstk := videoTracks_head_kind hst
    rcases hbc : buildDeviceConstraints env.selectedCamera env.selectedMicrophone false
        (env.microphoneEnabled && env.selectedMicrophone.isSome) with ⟨cv, ca⟩
    by_cases
      hoff : cv = Constraint.off ∧ ca = Constraint.off
    · simp [startRecording, startAfterScreen, startCompose, computeStartFlags,
        hidle, hscr, hd, hst, hbc, hoff.1, hoff.2] at hr
      subst hr
      simp [videoTracks_cons_video hstk,
        videoTracks_toList_audio (fun t ht => audioTracks_head_kind ht)]
    · have hcond : ¬cv = Constraint.off ∨ ¬ca = Constraint.off := by tauto
      cases hum : env.userMediaResult with
      | error e =>
        exfalso
        simp [startRecording, startAfterScreen, startCompose, computeStartFlags,
          hidle, hscr, hd, hst, hbc, hcond, hum, startFail, cleanupSession] at hrec
      | ok dts =>
        simp [startRecording, startAfterScreen, startCompose, computeStartFlags,
          hidle, hscr, hd, hst, hbc, hcond, hum] at hr
        subst hr
        simp [videoTracks_cons_video hstk,
          videoTracks_toList_audio (fun t ht => audioTracks_head_kind ht)]

/-- Witness for C4 at a concrete screen+microphone environment. -/
theorem claim_C4_screen_priority_witness :
    (computeStartFlags startEnvScreen).captureCamera = false ∧
    videoTracks
      ({ stream := [sampleVideoTrack, sampleAudioTrack],
         mimeType := some "video/webm;codecs=vp9,opus" } : Recorder).stream =
      [sampleVideoTrack] := by
  have h := claim_C4_screen_priority startEnvScreen sessionIdle rfl rfl
    (fun ts hts => by
      have h2 : ([sampleVideoTrack] : List Track) = ts := by
        simpa [startEnvScreen, startEnvMicOnly] using hts
      subst h2
      decide)
  refine ⟨h.1, ?_⟩
  obtain ⟨ts, st, hts, hst, hvt⟩ := h.2
    { stream := [sampleVideoTrack, sampleAudioTrack],
      mimeType := some "video/webm;codecs=vp9,opus" } (by decide) (by decide)
  have h2 : ([sampleVideoTrack] : List Track) = ts := by
    simpa [startEnvScreen, startEnvMicOnly] using hts
  subst h2
  have h3 : sampleVideoTrack = st := by
    simpa [videoTracks, sampleVideoTrack] using hst
  rw [hvt, ← h3]

/-- C1 (amended): a stop that finalizes a non-empty blob and whose save is
accepted hands the blob (its full size) to the sink under the filename
`recording-<sanitized ISO timestamp>.webm` — the extension is fixed to
webm regardless of the encoder's reported container — and requests the
listing refresh exactly once, immediately afterwards. -/
theorem claim_C1_save_refresh (env : StopEnv) (s : SessionState) (r : Recorder)
    (hst : s.recordingStatus = RecordingStatus.recording)
    (hr : s.mediaRecorder = some r)
    (hstop : env.stopSucceeds = true)
    (hblob : s.chunks.sum > 0)
    (hsave : env.saveResult = Except.ok ()) :
    ∃ bt post,
      (stopRecording env s).2 =
        SessionEvent.recorderStop ::
          SessionEvent.saveRecording s.chunks.sum bt
            ("recording-" ++ sanitizeTimestamp env.nowIso ++ ".webm") ::
          SessionEvent.refreshRecordings :: post ∧
      ((stopRecording env s).2).countP isSaveEvent = 1 ∧
      ((stopRecording env s).2).countP isRefreshEvent = 1 := by
  have hev : ∃ bt,
      (stopRecording env s).2 =
        SessionEvent.recorderStop ::
          SessionEvent.saveRecording s.chunks.sum bt
            ("recording-" ++ sanitizeTimestamp env.nowIso ++ ".webm") ::
          SessionEvent.refreshRecordings ::
          (trackStops s.recordingStream ++ trackStops s.deviceStream ++
            trackStops s.screenStream ++ [SessionEvent.clearActiveTracks]) := by
    refine ⟨if (match r.mimeType with
        | some m => m
        | none => env.reportedDefaultMimeType) = "" then "video/webm"
      else (match r.mimeType with
        | some m => m
        | none => env.reportedDefaultMimeType), ?_⟩
    cases hrf : env.refreshResult with
    | error e =>
      simp [stopRecording, hr, hst, hstop, hblob, hsave, hrf, createFilename,
        cleanupSession]
    | ok u =>
      simp [stopRecording, hr, hst, hstop, hblob, hsave, hrf, createFilename,
        cleanupSession]
  obtain ⟨bt, hev⟩ := hev
  refine ⟨bt, _, hev, ?_, ?_⟩ <;> rw [hev] <;>
    simp [List.countP_cons, List.countP_append, isSaveEvent, isRefreshEvent,
      trackStops_countP_save, trackStops_countP_refresh]

/-- C1 (counterexample to the claim as stated): with an encoder that falls
back to the platform default container `video/mp4`, the saved blob is
tagged `video/mp4` while the filename extension stays `webm`, so the
extension does not correspond to the encoder's reported container. -/
theorem claim_C1_counterexample :
    (stopRecording stopEnvDefaultMp4 sessionRecording).2 =
      [SessionEvent.recorderStop,
       SessionEvent.saveRecording 8 "video/mp4"
         "recording-2026-10-11T01-02-03-456Z.webm",
       SessionEvent.refreshRecordings,
       SessionEvent.trackStop sampleAudioTrack,
       SessionEvent.trackStop sampleAudioTrack,
       SessionEvent.clearActiveTracks] ∧
    extensionOf "recording-2026-10-11T01-02-03-456Z.webm" = "webm" ∧
    mimeContainer "video/mp4" = "mp4" ∧
    extensionOf "recording-2026-10-11T01-02-03-456Z.webm" ≠
      mimeContainer "video/mp4" := by decide

/-- Witness for the amended C1 at a concrete microphone recording. -/
theorem claim_C1_save_refresh_witness :
    ((stopRecording stopEnvDefaultMp4 sessionRecording).2).countP isSaveEvent = 1 ∧
    ((stopRecording stopEnvDefaultMp4 sessionRecording).2).countP isRefreshEvent = 1 := by
  obtain ⟨bt, post, hev, h1, h2⟩ :=
    claim_C1_save_refresh stopEnvDefaultMp4 sessionRecording
      { stream := [sampleAudioTrack], mimeType := none } rfl rfl rfl (by decide) rfl
  exact ⟨h1, h2⟩

theorem digitChar_isDigit : ∀ m, m < 10 → (Nat.digitChar m).isDigit = true := by decide

theorem digitChar_val : ∀ m, m < 10 → (Nat.digitChar m).toNat - 48 = m := by decide

theorem digitsVal_append_singleton (l : List Char) (c : Char) :
    digitsVal (l ++ [c]) = 10 * digitsVal l + (c.toNat - 48) := by
  simp [digitsVal, List.foldl_append]

theorem toDigitsCore_spec : ∀ (f n : Nat) (ds : List Char), n < f →
    ∃ pre, Nat.toDigitsCore 10 f n ds = pre ++ ds ∧ pre ≠ [] ∧
      (∀ c ∈ pre, c.isDigit = true) ∧ digitsVal pre = n := by
  intro f
  induction f with
  | zero => intro n ds h; omega
  | succ f ih =>
    intro n ds h
    by_cases h0 : n / 10 = 0
    · refine ⟨[Nat.digitChar (n % 10)], ?_, by simp, ?_, ?_⟩
      · simp [Nat.toDigitsCore, h0]
      · intro c hc
        simp at hc
        subst hc
        exact digitChar_isDigit _ (Nat.mod_lt _ (by omega))
      · have hn : n < 10 := by omega
        simp [digitsVal]
        rw [digitChar_val _ (Nat.mod_lt _ (by omega))]
        omega
    · have hlt : n / 10 < f := by
        have h1 : n / 10 < n := Nat.div_lt_self (by omega) (by omega)
        omega
      obtain ⟨pre, heq, hne, hdig, hval⟩ := ih (n / 10) (Nat.digitChar (n % 10) :: ds) hlt
      refine ⟨pre ++ [Nat.digitChar (n % 10)], ?_, by simp, ?_, ?_⟩
      · rw [Nat.toDigitsCore]
        simp only [h0, if_false]
        rw [heq]
        simp
      · intro c hc
        rcases List.mem_append.mp hc with hx | hx
        · exact hdig c hx
        · simp at hx
          subst hx
          exact digitChar_isDigit _ (Nat.mod_lt _ (by omega))
      · rw [digitsVal_append_singleton, hval, digitChar_val _ (Nat.mod_lt _ (by omega))]
        exact Nat.div_add_mod n 10

theorem repr_data_spec (n : Nat) :
    (∀ c ∈ (Nat.repr n).data, c.isDigit = true) ∧
      digitsVal (Nat.repr n).data = n := by
  obtain ⟨pre, heq, -, hdig, hval⟩ := toDigitsCore_spec (n + 1) n [] (by omega)
  have hdata : (Nat.repr n).data = pre := by
    show (Nat.toDigits 10 n).asString.data = pre
    rw [Nat.toDigits, heq]
    simp [List.asString]
  rw [hdata]
  exact ⟨hdig, hval⟩

theorem repr_inj {a b : Nat} (h : Nat.repr a = Nat.repr b) : a = b := by
  have ha := (repr_data_spec a).2
  have hb := (repr_data_spec b).2
  rw [← ha, ← hb, h]

theorem repr_no_colon (n : Nat) : ':' ∉ (Nat.repr n).data := by
  intro hc
  have := (repr_data_spec n).1 ':' hc
  exact absurd this (by decide)

theorem append_sep_inj {c : Char} :
    ∀ (x y a b : List Char), c ∉ a → c ∉ b → x ++ c :: a = y ++ c :: b → a = b := by
  intro x
  induction x with
  | nil =>
    intro y a b ha hb h
    cases y with
    | nil => simpa using h
    | cons y' ys =>
      simp at h
      obtain ⟨h1, h2⟩ := h
      exact absurd (by rw [h2]; exact List.mem_append_right _ (List.mem_cons_self _ _)) ha
  | cons x' xs ih =>
    intro y a b ha hb h
    cases y with
    | nil =>
      simp at h
      obtain ⟨h1, h2⟩ := h
      exact absurd (by rw [← h2]; exact List.mem_append_right _ (List.mem_cons_self _ _)) hb
    | cons y' ys =>
      simp at h
      exact ih ys a b ha hb h.2



theorem takeWhile_append_cons {p : Char → Bool} :
    ∀ (a : List Char) (c : Char) (b : List Char),
      (∀ x ∈ a, p x = true) → p c = false → (a ++ c :: b).takeWhile p = a := by
  intro a
  induction a with
  | nil =>
    intro c b _ hc
    simp [List.takeWhile_cons, hc]
  | cons x xs ih =>
    intro c b ha hc
    simp [List.takeWhile_cons, ha x (by simp),
      ih c b (fun y hy => ha y (by simp [hy])) hc]

theorem afterLastColon_append (x r : List Char) (hr : ':' ∉ r) :
    afterLastColon (x ++ ':' :: r) = r := by
  unfold afterLastColon
  rw [List.reverse_append]
  simp only [List.reverse_cons, List.append_assoc, List.singleton_append]
  rw [takeWhile_append_cons]
  · simp
  · intro y hy
    simp at hy ⊢
    intro heq
    exact hr (heq ▸ hy)
  · simp

theorem afterLastColon_key (A : String) (n : Nat) :
    afterLastColon (A ++ ":" ++ Nat.repr n).data = (Nat.repr n).data := by
  have hx : (A ++ ":" ++ Nat.repr n).data = A.data ++ ':' :: (Nat.repr n).data := by
    simp [String.data_append]
  rw [hx]
  exact afterLastColon_append _ _ (repr_no_colon n)

theorem createSelectionKey_eq_cases (kind : MediaDeviceKind) (d1 d2 : PlatformDevice)
    (i j : Nat)
    (h : createSelectionKey d1 kind i = createSelectionKey d2 kind j) :
    ((jsTrim d1.deviceId).length > 0 ∧ (jsTrim d2.deviceId).length > 0 ∧
      jsTrim d1.deviceId = jsTrim d2.deviceId) ∨ i = j := by
  by_cases h1 : (jsTrim d1.deviceId).length > 0 <;>
    by_cases h2 : (jsTrim d2.deviceId).length > 0
  · left
    refine ⟨h1, h2, ?_⟩
    simp only [createSelectionKey, h1, h2, if_true] at h
    have hd := congrArg String.data h
    simp only [String.data_append, List.append_assoc] at hd
    exact String.ext (List.append_cancel_left (List.append_cancel_left hd))
  · exfalso
    simp only [createSelectionKey, h1, h2, if_true, if_false] at h
    have hd := congrArg String.data h
    simp only [String.data_append, List.append_assoc] at hd
    have hx := List.append_cancel_left hd
    simp at hx
  · exfalso
    simp only [createSelectionKey, h1, h2, if_true, if_false] at h
    have hd := congrArg String.data h
    simp only [String.data_append, List.append_assoc] at hd
    have hx := List.append_cancel_left hd
    simp at hx
  · right
    simp only [createSelectionKey, h1, h2, if_false] at h
    have h5 := congrArg (fun s : String => afterLastColon s.data) h
    simp only at h5
    rw [afterLastColon_key, afterLastColon_key] at h5
    exact repr_inj (String.ext h5)



theorem enumeratedDevices_keys_nodup (kind : MediaDeviceKind) (ds : List PlatformDevice)
    (h : (ds.filter (fun d => decide (d.kind = kind))).Pairwise
      (fun d1 d2 => (jsTrim d1.deviceId).length > 0 →
        (jsTrim d2.deviceId).length > 0 → jsTrim d1.deviceId ≠ jsTrim d2.deviceId)) :
    ((enumeratedDevices kind ds).map (fun d => d.selectionKey)).Nodup := by
  have hkeys : (enumeratedDevices kind ds).map (fun d => d.selectionKey) =
      (ds.filter (fun d => decide (d.kind = kind))).mapIdx
        (fun i d => createSelectionKey d kind i) := by
    simp [enumeratedDevices, List.mapIdx_eq_enum_map, List.map_map]
  rw [hkeys]
  have hp := List.pairwise_iff_getElem.mp h
  show List.Pairwise _ _
  refine List.pairwise_iff_getElem.mpr ?_
  intro i j hi hj hij
  rw [List.getElem_mapIdx, List.getElem_mapIdx]
  intro heq
  rcases createSelectionKey_eq_cases kind _ _ i j heq with ⟨hi1, hj1, hid⟩ | hij2
  · exact hp i j (by simpa using hi) (by simpa using hj) hij hi1 hj1 hid
  · omega



/-- C7 (amended): after an enumeration whose same-kind devices have
pairwise distinct non-empty trimmed ids, every selection key is unique
within its kind's list. -/
theorem claim_C7_unique_keys (s : DevState) (ds : List PlatformDevice)
    (hcam : (ds.filter (fun d => decide (d.kind = MediaDeviceKind.videoinput))).Pairwise
      (fun d1 d2 => (jsTrim d1.deviceId).length > 0 →
        (jsTrim d2.deviceId).length > 0 → jsTrim d1.deviceId ≠ jsTrim d2.deviceId))
    (hmic : (ds.filter (fun d => decide (d.kind = MediaDeviceKind.audioinput))).Pairwise
      (fun d1 d2 => (jsTrim d1.deviceId).length > 0 →
        (jsTrim d2.deviceId).length > 0 → jsTrim d1.deviceId ≠ jsTrim d2.deviceId)) :
    ((applyDevOp (DevOp.enumerate true (Except.ok ds)) s).1.availableCameras.map
      (fun d => d.selectionKey)).Nodup ∧
    ((applyDevOp (DevOp.enumerate true (Except.ok ds)) s).1.availableMicrophones.map
      (fun d => d.selectionKey)).Nodup := by
  obtain ⟨hac, ham, -, -⟩ := validate_spec { s with
    isEnumerating := true
    errorMessage := none
    availableCameras := enumeratedDevices MediaDeviceKind.videoinput ds
    availableMicrophones := enumeratedDevices MediaDeviceKind.audioinput ds }
  constructor
  · simp only [applyDevOp, Bool.not_true, Bool.false_eq_true, if_false, hac]
    exact enumeratedDevices_keys_nodup MediaDeviceKind.videoinput ds hcam
  · simp only [applyDevOp, Bool.not_true, Bool.false_eq_true, if_false, ham]
    exact enumeratedDevices_keys_nodup MediaDeviceKind.audioinput ds hmic

/-- C7 (counterexample to the claim as stated): two distinct platform
cameras whose raw ids differ only by whitespace produce the same id-form
selection key, so uniqueness fails for an arbitrary input list. -/
theorem claim_C7_counterexample :
    ¬ (((applyDevOp (DevOp.enumerate true (Except.ok collidingCameras))
        devStateInit).1.availableCameras.map (fun d => d.selectionKey)).Nodup) := by
  decide

/-- Witness for the amended C7 at a concrete device list. -/
theorem claim_C7_unique_keys_witness :
    ((applyDevOp (DevOp.enumerate true (Except.ok samplePlatformDevices))
      devStateInit).1.availableCameras.map (fun d => d.selectionKey)).Nodup ∧
    ((applyDevOp (DevOp.enumerate true (Except.ok samplePlatformDevices))
      devStateInit).1.availableMicrophones.map (fun d => d.selectionKey)).Nodup :=
  claim_C7_unique_keys devStateInit samplePlatformDevices (by decide) (by decide)


end LoomClone
